import Mathlib

/-!
Shallow embedding of the github-automation-log repository: two Python
scripts, github_daily_logger.py and update_daily_log.py, that append a
dated entry to a Markdown log file and stage, commit and push it with
git.  A file is modelled as an `Option String` (existence plus full text
content), each subprocess result is a field of an environment record
fixed before the run, and every git invocation a run issues is recorded
in a command trace.
-/

/-- Python substring containment `needle in hay` on str values. -/
def strContains (hay needle : String) : Bool :=
  decide (needle.data <:+: hay.data)

/-- Python suffix test s.endswith(suffix) on str values. -/
def strEndsWith (s suffix : String) : Bool :=
  decide (suffix.data <:+ s.data)

/-- Python s.lower(), character-wise lowercasing. -/
def strToLower (s : String) : String :=
  ⟨s.data.map Char.toLower⟩

/-- A calendar date, as produced by datetime.date.today(). -/
structure Date where
  year : Nat
  month : Nat
  day : Nat
deriving DecidableEq

/-- A wall-clock instant, as produced by datetime.datetime.now(). -/
structure DateTime where
  date : Date
  hour : Nat
  minute : Nat
  second : Nat
deriving DecidableEq

/-- Decimal rendering of n zero-padded to width 2, embedding strftime
fields %m, %d, %H, %M, %S, whose values are below 100. -/
def pad2 (n : Nat) : String :=
  ⟨[Nat.digitChar (n / 10 % 10), Nat.digitChar (n % 10)]⟩

/-- Decimal rendering of n zero-padded to width 4, embedding strftime %Y
and the Python format spec 04d at the task-id call site, whose arguments
are below 10000. -/
def pad4 (n : Nat) : String :=
  ⟨[Nat.digitChar (n / 1000 % 10), Nat.digitChar (n / 100 % 10),
    Nat.digitChar (n / 10 % 10), Nat.digitChar (n % 10)]⟩

/-- strftime of a date with format %Y-%m-%d. -/
def Date.toStr (d : Date) : String :=
  pad4 d.year ++ "-" ++ pad2 d.month ++ "-" ++ pad2 d.day

/-- strftime of a date with format %Y%m%d. -/
def Date.compact (d : Date) : String :=
  pad4 d.year ++ pad2 d.month ++ pad2 d.day

/-- strftime of an instant with format %Y-%m-%d %H:%M:%S. -/
def DateTime.timeStamp (t : DateTime) : String :=
  t.date.toStr ++ " " ++ pad2 t.hour ++ ":" ++ pad2 t.minute ++ ":" ++ pad2 t.second

/-- One external git invocation issued through run_command. -/
inductive Cmd where
  | gitVersion
  | getUserName
  | getUserEmail
  | revParseToplevel
  | getRemoteUrl
  | revParseBranch
  | add (path : String)
  | diffCached (path : String)
  | commit (message : String)
  | push (branch : String)
deriving DecidableEq

/-- Whether a git command mutates the repository state: staging a path,
committing, or pushing.  The query commands are read-only. -/
def Cmd.isMutation : Cmd → Bool
  | .add _ => true
  | .commit _ => true
  | .push _ => true
  | _ => false

/-- Exit codes and captured output of the git invocations
github_daily_logger.py may issue, fixed in advance as the environment of
one run.  Output fields that the script only prints are omitted. -/
structure GitEnv where
  versionExit : Nat
  userNameExit : Nat
  userName : String
  userEmailExit : Nat
  userEmail : String
  addExit : Nat
  commitExit : Nat
  commitStderr : String
  pushBranchExit : Nat
  pushBranch : String
  pushExit : Nat

/-- Exit codes and captured output of the repository-resolution queries
issued by get_current_repo_info. -/
structure RepoEnv where
  toplevelExit : Nat
  toplevel : String
  remoteExit : Nat
  remoteUrl : String
  branchExit : Nat
  branch : String

/-- The dict returned by get_current_repo_info on success. -/
structure RepoInfo where
  path : String
  remoteUrl : String
  branch : String

/-- Outcome of one run of a main function: the process exit status, the
final log-file state, and the trace of git commands issued. -/
structure MainResult where
  exitCode : Nat
  file : Option String
  trace : List Cmd

namespace GithubDailyLogger

/-- check_git_config of github_daily_logger.py: git version query must
succeed, then user.name and user.email are both queried and each must
succeed with nonempty output. -/
def check_git_config (g : GitEnv) : Bool × List Cmd :=
  if g.versionExit ≠ 0 then
    (false, [Cmd.gitVersion])
  else if g.userNameExit ≠ 0 ∨ g.userName = "" then
    (false, [Cmd.gitVersion, Cmd.getUserName, Cmd.getUserEmail])
  else if g.userEmailExit ≠ 0 ∨ g.userEmail = "" then
    (false, [Cmd.gitVersion, Cmd.getUserName, Cmd.getUserEmail])
  else
    (true, [Cmd.gitVersion, Cmd.getUserName, Cmd.getUserEmail])

/-- get_current_repo_info of github_daily_logger.py: three queries in
sequence, each failure short-circuiting to None. -/
def get_current_repo_info (r : RepoEnv) : Option RepoInfo × List Cmd :=
  if r.toplevelExit ≠ 0 then
    (none, [Cmd.revParseToplevel])
  else if r.remoteExit ≠ 0 then
    (none, [Cmd.revParseToplevel, Cmd.getRemoteUrl])
  else if r.branchExit ≠ 0 then
    (none, [Cmd.revParseToplevel, Cmd.getRemoteUrl, Cmd.revParseBranch])
  else
    (some ⟨r.toplevel, r.remoteUrl, r.branch⟩,
      [Cmd.revParseToplevel, Cmd.getRemoteUrl, Cmd.revParseBranch])

/-- Content read back in create_or_update_log_file after its existence
check: an absent file is first created empty by write_text of the empty
string. -/
def readOrCreate (file : Option String) : String :=
  match file with
  | none => ""
  | some c => c

/-- create_or_update_log_file of github_daily_logger.py: create the file
empty if absent, then append the entry plus a newline, first appending a
newline when the existing content is nonempty and does not already end
with one. -/
def create_or_update_log_file (file : Option String) (log_entry : String) : String :=
  (if readOrCreate file ≠ "" ∧ strEndsWith (readOrCreate file) "\n" = false
      then readOrCreate file ++ "\n"
      else readOrCreate file)
    ++ log_entry ++ "\n"

/-- check_if_already_logged_today of github_daily_logger.py: false when
the file does not exist, otherwise substring containment of the date
string in the full content. -/
def check_if_already_logged_today (file : Option String) (today_str : String) : Bool :=
  match file with
  | none => false
  | some content => strContains content today_str

/-- stage_and_commit_changes of github_daily_logger.py: git add, then
git commit; a non-zero commit whose stderr lowercased contains the text
nothing to commit is reclassified as success. -/
def stage_and_commit_changes (g : GitEnv) (log_file_path commit_message : String) :
    Bool × List Cmd :=
  if g.addExit ≠ 0 then
    (false, [Cmd.add log_file_path])
  else if g.commitExit ≠ 0 then
    if strContains (strToLower g.commitStderr) "nothing to commit" then
      (true, [Cmd.add log_file_path, Cmd.commit commit_message])
    else
      (false, [Cmd.add log_file_path, Cmd.commit commit_message])
  else
    (true, [Cmd.add log_file_path, Cmd.commit commit_message])

/-- push_changes of github_daily_logger.py: resolve the current branch,
then push it to origin. -/
def push_changes (g : GitEnv) : Bool × List Cmd :=
  if g.pushBranchExit ≠ 0 then
    (false, [Cmd.revParseBranch])
  else if g.pushExit ≠ 0 then
    (false, [Cmd.revParseBranch, Cmd.push g.pushBranch])
  else
    (true, [Cmd.revParseBranch, Cmd.push g.pushBranch])

/-- generate_daily_entry of github_daily_logger.py.  The weekday string
is the strftime %A rendering and hashValue models the salted Python hash
of the timestamp string; both are oracles of the environment. -/
def generate_daily_entry (now : DateTime) (weekday : String) (hashValue : Int) : String :=
  "[" ++ now.timeStamp ++ "] Daily automation: Updated learning log on " ++ weekday ++ ". "
    ++ "Performed system maintenance, reviewed documentation, and practiced automation workflows. "
    ++ "Task ID: AUTO-" ++ now.date.compact ++ "-" ++ pad4 ((hashValue % 10000).toNat)

/-- The commit message main builds for the day. -/
def commitMessage (today : Date) : String :=
  "docs: Update daily learning log for " ++ today.toStr

/-- Environment of one run of the main function of
github_daily_logger.py: subprocess results, the command-line repo path
argument and whether that path exists, the log-file state, the two clock
reads, and the strftime %A and hash oracles. -/
structure Env where
  git : GitEnv
  repo : RepoEnv
  repoPathArg : Option String
  repoPathExists : String → Bool
  file : Option String
  today : Date
  now : DateTime
  weekday : String
  hashValue : Int

/-- The daily entry a run generates from its environment. -/
def Env.entry (env : Env) : String :=
  generate_daily_entry env.now env.weekday env.hashValue

/-- Whether check_git_config passes in this environment. -/
def Env.cfgOk (env : Env) : Bool :=
  (check_git_config env.git).1

/-- Whether repository resolution succeeds in this environment: an
explicit path argument must exist, otherwise get_current_repo_info must
succeed. -/
def Env.repoOk (env : Env) : Bool :=
  match env.repoPathArg with
  | some p => env.repoPathExists p
  | none => (get_current_repo_info env.repo).1.isSome

/-- The trace of the preflight and repository-resolution commands a run
issues before reaching the idempotency check. -/
def Env.preTrace (env : Env) : List Cmd :=
  match env.repoPathArg with
  | some _ => (check_git_config env.git).2
  | none => (check_git_config env.git).2 ++ (get_current_repo_info env.repo).2

/-- Steps of main from the idempotency check on: skip with exit 0 when
today is already logged, otherwise generate the entry, append it, stage
and commit, then push; the first failing step exits 1. -/
def mainSteps (env : Env) (log_file : String) (t : List Cmd) : MainResult :=
  if check_if_already_logged_today env.file env.today.toStr = true then
    ⟨0, env.file, t⟩
  else if (stage_and_commit_changes env.git log_file (commitMessage env.today)).1 = false then
    ⟨1, some (create_or_update_log_file env.file env.entry),
      t ++ (stage_and_commit_changes env.git log_file (commitMessage env.today)).2⟩
  else if (push_changes env.git).1 = false then
    ⟨1, some (create_or_update_log_file env.file env.entry),
      t ++ (stage_and_commit_changes env.git log_file (commitMessage env.today)).2
        ++ (push_changes env.git).2⟩
  else
    ⟨0, some (create_or_update_log_file env.file env.entry),
      t ++ (stage_and_commit_changes env.git log_file (commitMessage env.today)).2
        ++ (push_changes env.git).2⟩

/-- main of github_daily_logger.py: git-config preflight, repository
resolution (explicit path argument or ambient queries), then the daily
steps.  sys.exit(1) on a failed preflight or resolution is modelled as
exit code 1 with the trace issued so far. -/
def main (env : Env) (log_file : String) : MainResult :=
  if (check_git_config env.git).1 = false then
    ⟨1, env.file, (check_git_config env.git).2⟩
  else
    match env.repoPathArg with
    | some p =>
        if env.repoPathExists p = false then
          ⟨1, env.file, (check_git_config env.git).2⟩
        else
          mainSteps env log_file (check_git_config env.git).2
    | none =>
        if (get_current_repo_info env.repo).1.isNone then
          ⟨1, env.file, (check_git_config env.git).2 ++ (get_current_repo_info env.repo).2⟩
        else
          mainSteps env log_file
            ((check_git_config env.git).2 ++ (get_current_repo_info env.repo).2)

end GithubDailyLogger

namespace UpdateDailyLog

/-- The fixed header update_daily_log.py writes when it creates the log
file. -/
def newFileHeader : String :=
  "# Learning Log\n\nThis file tracks daily learning activities and system maintenance tasks.\n\n"

/-- Content read back in create_or_update_log_file after its existence
check: an absent file is first created holding the fixed header. -/
def readOrCreate (file : Option String) : String :=
  match file with
  | none => newFileHeader
  | some c => c

/-- create_or_update_log_file of update_daily_log.py: create the file
with the fixed header if absent, then append the entry plus a newline,
first appending a newline when the existing content is nonempty and does
not already end with one. -/
def create_or_update_log_file (file : Option String) (log_entry : String) : String :=
  (if readOrCreate file ≠ "" ∧ strEndsWith (readOrCreate file) "\n" = false
      then readOrCreate file ++ "\n"
      else readOrCreate file)
    ++ log_entry ++ "\n"

/-- check_if_already_logged_today of update_daily_log.py: false when the
file does not exist, otherwise substring containment of the date string
in the full content. -/
def check_if_already_logged_today (file : Option String) (today_str : String) : Bool :=
  match file with
  | none => false
  | some content => strContains content today_str

/-- generate_daily_entry of update_daily_log.py, textually identical to
the one in github_daily_logger.py. -/
def generate_daily_entry (now : DateTime) (weekday : String) (hashValue : Int) : String :=
  "[" ++ now.timeStamp ++ "] Daily automation: Updated learning log on " ++ weekday ++ ". "
    ++ "Performed system maintenance, reviewed documentation, and practiced automation workflows. "
    ++ "Task ID: AUTO-" ++ now.date.compact ++ "-" ++ pad4 ((hashValue % 10000).toNat)

/-- Environment of one run of the main function of update_daily_log.py:
the log-file state, the clock reads and oracles, and the exit codes of
its three git invocations. -/
structure Env where
  file : Option String
  today : Date
  now : DateTime
  weekday : String
  hashValue : Int
  addExit : Nat
  diffExit : Nat
  commitExit : Nat

/-- The daily entry a run generates from its environment. -/
def Env.entry (env : Env) : String :=
  generate_daily_entry env.now env.weekday env.hashValue

/-- main of update_daily_log.py: idempotency check, append, git add,
then a staged-diff check that returns success without committing when
nothing is staged, then git commit.  No push: the surrounding workflow
handles it. -/
def main (env : Env) : MainResult :=
  if check_if_already_logged_today env.file env.today.toStr = true then
    ⟨0, env.file, []⟩
  else if env.addExit ≠ 0 then
    ⟨1, some (create_or_update_log_file env.file env.entry), [Cmd.add "learning_log.md"]⟩
  else if env.diffExit = 0 then
    ⟨0, some (create_or_update_log_file env.file env.entry),
      [Cmd.add "learning_log.md", Cmd.diffCached "learning_log.md"]⟩
  else if env.commitExit ≠ 0 then
    ⟨1, some (create_or_update_log_file env.file env.entry),
      [Cmd.add "learning_log.md", Cmd.diffCached "learning_log.md",
        Cmd.commit ("docs: Update daily learning log for " ++ env.today.toStr)]⟩
  else
    ⟨0, some (create_or_update_log_file env.file env.entry),
      [Cmd.add "learning_log.md", Cmd.diffCached "learning_log.md",
        Cmd.commit ("docs: Update daily learning log for " ++ env.today.toStr)]⟩

end UpdateDailyLog

/-- One observable action of the multi-entry variant run. -/
inductive VariantAction where
  | write (entry : String)
  | commit (message : String)
  | sleep (seconds : Nat)
deriving DecidableEq

/-- Whether a variant action is a commit. -/
def VariantAction.isCommit : VariantAction → Bool
  | .commit _ => true
  | _ => false

/-- Modelled from the spec: the multi-entry variant script is not among
the source files; per the spec its per-invocation entry count is
configurable with default 7. -/
def variantDefaultCount : Nat := 7

/-- Modelled from the spec: each variant entry is a Markdown subsection
carrying the UTC time and a fixed activity description. -/
def variantEntry (utcTime : String) : String :=
  "### " ++ utcTime ++ " UTC\n\nAutomated daily learning log activity.\n"

/-- Modelled from the spec: the commit message of the multi-entry
variant, docs colon daily log entry index, date in parentheses. -/
def variantCommitMessage (index : Nat) (date : String) : String :=
  "docs: daily log entry " ++ toString index ++ " (" ++ date ++ ")"

/-- Modelled from the spec: one iteration of the variant writes its
entry, commits it individually, and then pauses for a fixed few seconds
so consecutive commits get visually distinct timestamps. -/
def variantBlock (date : String) (utcTimes : Nat → String) (i : Nat) : List VariantAction :=
  [VariantAction.write (variantEntry (utcTimes i)),
    VariantAction.commit (variantCommitMessage (i + 1) date),
    VariantAction.sleep 3]

/-- Modelled from the spec: a variant run with a given entry count is
the sequence of its per-entry iterations. -/
def variantRun (count : Nat) (date : String) (utcTimes : Nat → String) : List VariantAction :=
  (List.range count).flatMap (variantBlock date utcTimes)

/-- A git environment in which every invocation succeeds. -/
def sampleGit : GitEnv :=
  ⟨0, 0, "user", 0, "user@example.com", 0, 0, "", 0, "main", 0⟩

/-- A repository environment in which every query succeeds. -/
def sampleRepo : RepoEnv :=
  ⟨0, "/repo", 0, "git@github.com:me/log.git", 0, "main"⟩

/-- A sample date. -/
def sampleDate : Date := ⟨2024, 1, 1⟩

/-- A sample instant on the sample date. -/
def sampleNow : DateTime := ⟨⟨2024, 1, 1⟩, 12, 30, 45⟩

/-- A healthy environment whose log file already holds the sample date. -/
def sampleEnvLogged : GithubDailyLogger.Env :=
  ⟨sampleGit, sampleRepo, none, fun _ => false, some "x 2024-01-01 y",
    sampleDate, sampleNow, "Monday", 1234⟩

/-- A healthy environment whose log file does not hold the sample date. -/
def sampleEnvFresh : GithubDailyLogger.Env :=
  ⟨sampleGit, sampleRepo, none, fun _ => false, some "# Log\n",
    sampleDate, sampleNow, "Monday", 1234⟩

/-- A git environment with user.name configured empty. -/
def sampleGitNoName : GitEnv :=
  ⟨0, 0, "", 0, "user@example.com", 0, 0, "", 0, "main", 0⟩

/-- An environment whose git identity name is unset. -/
def sampleEnvNoName : GithubDailyLogger.Env :=
  ⟨sampleGitNoName, sampleRepo, none, fun _ => false, some "# Log\n",
    sampleDate, sampleNow, "Monday", 1234⟩

/-- A git environment whose commit fails benignly with nothing to
commit in its stderr. -/
def sampleGitNothing : GitEnv :=
  ⟨0, 0, "user", 0, "user@example.com", 0, 1,
    "On branch main\nnothing to commit, working tree clean", 0, "main", 0⟩

/-- An environment whose commit reports nothing to commit. -/
def sampleEnvNothing : GithubDailyLogger.Env :=
  ⟨sampleGitNothing, sampleRepo, none, fun _ => false, some "# Log\n",
    sampleDate, sampleNow, "Monday", 1234⟩

/-- A git environment whose push fails. -/
def sampleGitPushFail : GitEnv :=
  ⟨0, 0, "user", 0, "user@example.com", 0, 0, "", 0, "main", 1⟩

/-- An environment whose push fails after a clean commit. -/
def sampleEnvPushFail : GithubDailyLogger.Env :=
  ⟨sampleGitPushFail, sampleRepo, none, fun _ => false, some "# Log\n",
    sampleDate, sampleNow, "Monday", 1234⟩

/-- The healthy environment as found by a second run of the day: its
log file is the one the first run on the fresh environment produced. -/
def sampleEnvSecond : GithubDailyLogger.Env :=
  ⟨sampleGit, sampleRepo, none, fun _ => false,
    (GithubDailyLogger.main sampleEnvFresh "learning_log.md").file,
    sampleDate, sampleNow, "Monday", 1234⟩

/-- An update-script environment in which the staged diff reports no
changes. -/
def sampleUEnv : UpdateDailyLog.Env :=
  ⟨some "# Log\n", sampleDate, sampleNow, "Monday", 1234, 0, 0, 0⟩

theorem strContains_iff (hay needle : String) :
    strContains hay needle = true ↔ needle.data <:+: hay.data := by
  simp [strContains]

theorem substr_append_left (a b : String) : b.data <:+: (a ++ b).data :=
  ⟨a.data, [], by simp [String.data_append]⟩

theorem substr_append_right (a b : String) : a.data <:+: (a ++ b).data :=
  ⟨[], b.data, by simp [String.data_append]⟩

theorem substr_lift_right {l : List Char} {a : String} (h : l <:+: a.data) (b : String) :
    l <:+: (a ++ b).data :=
  h.trans (substr_append_right a b)

theorem substr_lift_left {l : List Char} {b : String} (h : l <:+: b.data) (a : String) :
    l <:+: (a ++ b).data :=
  h.trans (substr_append_left a b)

theorem data_prefix_append (a b : String) : a.data <+: (a ++ b).data :=
  ⟨b.data, by simp [String.data_append]⟩

theorem prefix_lift {l : List Char} {a : String} (h : l <+: a.data) (b : String) :
    l <+: (a ++ b).data :=
  h.trans (data_prefix_append a b)

/-- C1: check_if_already_logged_today returns true iff the file at the
given path exists and its full text content contains the date string as
a substring; in particular it returns false whenever the file does not
exist.  The two scripts' copies agree. -/
theorem check_logged_iff_exists_and_contains (fs : String → Option String) (P D : String) :
    (GithubDailyLogger.check_if_already_logged_today (fs P) D = true ↔
      ∃ c, fs P = some c ∧ D.data <:+: c.data) ∧
    (UpdateDailyLog.check_if_already_logged_today (fs P) D = true ↔
      ∃ c, fs P = some c ∧ D.data <:+: c.data) ∧
    (fs P = none →
      GithubDailyLogger.check_if_already_logged_today (fs P) D = false ∧
      UpdateDailyLog.check_if_already_logged_today (fs P) D = false) := by
  cases h : fs P with
  | none =>
      simp [GithubDailyLogger.check_if_already_logged_today,
        UpdateDailyLog.check_if_already_logged_today, h]
  | some c =>
      simp [GithubDailyLogger.check_if_already_logged_today,
        UpdateDailyLog.check_if_already_logged_today, strContains, h]

/-- C1 witness: a file whose content contains the date makes the check
true. -/
theorem check_logged_iff_witness :
    GithubDailyLogger.check_if_already_logged_today (some "x 2024-01-01 y") "2024-01-01" = true :=
  (check_logged_iff_exists_and_contains (fun _ => some "x 2024-01-01 y") "p" "2024-01-01").1.mpr
    ⟨"x 2024-01-01 y", rfl, by decide⟩

/-- C4 counterexample: with empty prior content (the state right after
github_daily_logger.py creates an absent file), the append inserts no
newline at all before the entry, not exactly one. -/
theorem append_to_empty_has_no_separator :
    GithubDailyLogger.create_or_update_log_file (some "") "entry" = "entry" ++ "\n" ∧
    ("entry" ++ "\n" : String) ≠ "" ++ "\n" ++ "entry" ++ "\n" := by
  exact ⟨by decide, by decide⟩

/-- C4 amended: for nonempty prior content that does not end in a
newline, the append writes exactly one separating newline before the
entry and exactly one trailing newline after it; for empty prior content
or content already ending in a newline, only the entry and its trailing
newline are appended.  The two scripts' copies agree. -/
theorem append_newline_normalization (C E : String) :
    (C ≠ "" → strEndsWith C "\n" = false →
      GithubDailyLogger.create_or_update_log_file (some C) E = C ++ "\n" ++ E ++ "\n" ∧
      UpdateDailyLog.create_or_update_log_file (some C) E = C ++ "\n" ++ E ++ "\n") ∧
    (strEndsWith C "\n" = true ∨ C = "" →
      GithubDailyLogger.create_or_update_log_file (some C) E = C ++ E ++ "\n" ∧
      UpdateDailyLog.create_or_update_log_file (some C) E = C ++ E ++ "\n") := by
  constructor
  · intro h1 h2
    constructor
    · simp [GithubDailyLogger.create_or_update_log_file, GithubDailyLogger.readOrCreate,
        h1, h2]
    · simp [UpdateDailyLog.create_or_update_log_file, UpdateDailyLog.readOrCreate, h1, h2]
  · intro h
    rcases h with h | h <;>
      exact ⟨by simp [GithubDailyLogger.create_or_update_log_file,
          GithubDailyLogger.readOrCreate, h],
        by simp [UpdateDailyLog.create_or_update_log_file, UpdateDailyLog.readOrCreate, h]⟩

/-- C4 witness: appending to content a, which does not end in a newline,
separates with exactly one newline. -/
theorem append_newline_normalization_witness :
    GithubDailyLogger.create_or_update_log_file (some "a") "x" = "a" ++ "\n" ++ "x" ++ "\n" :=
  ((append_newline_normalization "a" "x").1 (by decide) (by decide)).1

/-- C7 counterexample: empty prior content does not end in a newline,
yet the append inserts no newline between it and the entry. -/
theorem append_to_empty_inserts_no_newline :
    strEndsWith "" "\n" = false ∧
    GithubDailyLogger.create_or_update_log_file (some "") "y" = "y\n" ∧
    ("y\n" : String) ≠ "" ++ "\n" ++ "y" ++ "\n" :=
  ⟨by decide, by decide, by decide⟩

/-- C7 amended: the append only extends the existing content, which
stays a prefix of the result in both scripts; and a separating newline
is inserted between the content and the entry when the content is
nonempty and does not already end in one. -/
theorem append_only_extends (C E : String) :
    C.data <+: (GithubDailyLogger.create_or_update_log_file (some C) E).data ∧
    C.data <+: (UpdateDailyLog.create_or_update_log_file (some C) E).data ∧
    (C ≠ "" → strEndsWith C "\n" = false →
      GithubDailyLogger.create_or_update_log_file (some C) E = C ++ "\n" ++ E ++ "\n" ∧
      UpdateDailyLog.create_or_update_log_file (some C) E = C ++ "\n" ++ E ++ "\n") := by
  refine ⟨?_, ?_, ?_⟩
  · unfold GithubDailyLogger.create_or_update_log_file
    by_cases hc : GithubDailyLogger.readOrCreate (some C) ≠ "" ∧
        strEndsWith (GithubDailyLogger.readOrCreate (some C)) "\n" = false
    · rw [if_pos hc]
      exact prefix_lift (prefix_lift (data_prefix_append C "\n") E) "\n"
    · rw [if_neg hc]
      exact prefix_lift (data_prefix_append C E) "\n"
  · unfold UpdateDailyLog.create_or_update_log_file
    by_cases hc : UpdateDailyLog.readOrCreate (some C) ≠ "" ∧
        strEndsWith (UpdateDailyLog.readOrCreate (some C)) "\n" = false
    · rw [if_pos hc]
      exact prefix_lift (prefix_lift (data_prefix_append C "\n") E) "\n"
    · rw [if_neg hc]
      exact prefix_lift (data_prefix_append C E) "\n"
  · intro h1 h2
    constructor
    · simp [GithubDailyLogger.create_or_update_log_file, GithubDailyLogger.readOrCreate,
        h1, h2]
    · simp [UpdateDailyLog.create_or_update_log_file, UpdateDailyLog.readOrCreate, h1, h2]

/-- C7 witness: prior content stays a prefix after an append. -/
theorem append_only_extends_witness :
    ("# Log\n" : String).data <+:
      (GithubDailyLogger.create_or_update_log_file (some "# Log\n") "e").data :=
  (append_only_extends "# Log\n" "e").1

theorem data_suffix_append (a b : String) : b.data <:+ (a ++ b).data :=
  ⟨a.data, by simp [String.data_append]⟩

theorem suffix_lift {l : List Char} {b : String} (h : l <:+ b.data) (a : String) :
    l <:+ (a ++ b).data :=
  h.trans (data_suffix_append a b)

theorem timeStamp_starts_with_date (t : DateTime) :
    (t.date.toStr).data <+: t.timeStamp.data := by
  unfold DateTime.timeStamp
  exact prefix_lift (prefix_lift (prefix_lift (prefix_lift (prefix_lift
    (data_prefix_append t.date.toStr " ") (pad2 t.hour)) ":") (pad2 t.minute)) ":")
    (pad2 t.second)

theorem entry_contains_timeStamp (now : DateTime) (w : String) (hv : Int) :
    now.timeStamp.data <:+: (GithubDailyLogger.generate_daily_entry now w hv).data := by
  unfold GithubDailyLogger.generate_daily_entry
  exact substr_lift_right (substr_lift_right (substr_lift_right (substr_lift_right
    (substr_lift_right (substr_lift_right (substr_lift_right (substr_lift_right
      (substr_append_left "[" now.timeStamp)
      "] Daily automation: Updated learning log on ") w) ". ")
      "Performed system maintenance, reviewed documentation, and practiced automation workflows. ")
      "Task ID: AUTO-") now.date.compact) "-") (pad4 ((hv % 10000).toNat))

theorem entry_contains_date (now : DateTime) (w : String) (hv : Int) :
    (now.date.toStr).data <:+: (GithubDailyLogger.generate_daily_entry now w hv).data :=
  (timeStamp_starts_with_date now).isInfix.trans (entry_contains_timeStamp now w hv)

theorem append_result_contains_entry (file : Option String) (e : String) :
    e.data <:+: (GithubDailyLogger.create_or_update_log_file file e).data := by
  unfold GithubDailyLogger.create_or_update_log_file
  exact substr_lift_right (substr_append_left _ e) "\n"

theorem check_append_generated (file : Option String) (now : DateTime) (w : String)
    (hv : Int) :
    GithubDailyLogger.check_if_already_logged_today
      (some (GithubDailyLogger.create_or_update_log_file file
        (GithubDailyLogger.generate_daily_entry now w hv))) now.date.toStr = true := by
  simp only [GithubDailyLogger.check_if_already_logged_today]
  exact (strContains_iff _ _).mpr
    ((entry_contains_date now w hv).trans
      (append_result_contains_entry file (GithubDailyLogger.generate_daily_entry now w hv)))

theorem entry_task_id_suffix (now : DateTime) (w : String) (hv : Int) :
    ("AUTO-" ++ now.date.compact ++ "-" ++ pad4 ((hv % 10000).toNat)).data <:+
      (GithubDailyLogger.generate_daily_entry now w hv).data := by
  have hlit : ("Task ID: AUTO-" : String).data =
      ("Task ID: " : String).data ++ ("AUTO-" : String).data := by decide
  refine ⟨("[" ++ now.timeStamp ++ "] Daily automation: Updated learning log on "
    ++ w ++ ". "
    ++ "Performed system maintenance, reviewed documentation, and practiced automation workflows. "
    ++ "Task ID: ").data, ?_⟩
  unfold GithubDailyLogger.generate_daily_entry
  simp [String.data_append, hlit, List.append_assoc]

/-- C5: the generated entry embeds the current date in YYYY-MM-DD form
inside its YYYY-MM-DD HH:MM:SS timestamp; it ends with a task identifier
AUTO-YYYYMMDD-NNNN whose NNNN is the 4-character zero-padded rendering
of the timestamp hash modulo 10000, a value below 10000; and appending
the generated entry to any log file and then running the idempotency
check for that same date returns true. -/
theorem generated_entry_round_trip (now : DateTime) (w : String) (hv : Int)
    (file : Option String) :
    (now.date.toStr).data <:+: (GithubDailyLogger.generate_daily_entry now w hv).data ∧
    ("AUTO-" ++ now.date.compact ++ "-" ++ pad4 ((hv % 10000).toNat)).data <:+
      (GithubDailyLogger.generate_daily_entry now w hv).data ∧
    (pad4 ((hv % 10000).toNat)).length = 4 ∧
    (hv % 10000).toNat < 10000 ∧
    GithubDailyLogger.check_if_already_logged_today
      (some (GithubDailyLogger.create_or_update_log_file file
        (GithubDailyLogger.generate_daily_entry now w hv))) now.date.toStr = true := by
  refine ⟨entry_contains_date now w hv, entry_task_id_suffix now w hv, rfl, ?_,
    check_append_generated file now w hv⟩
  have h1 : (0 : Int) ≤ hv % 10000 := Int.emod_nonneg hv (by decide)
  have h2 : hv % 10000 < 10000 := Int.emod_lt_of_pos hv (by decide)
  omega

/-- C5 witness: the round trip at a concrete instant. -/
theorem generated_entry_round_trip_witness :
    GithubDailyLogger.check_if_already_logged_today
      (some (GithubDailyLogger.create_or_update_log_file (some "# Log\n")
        (GithubDailyLogger.generate_daily_entry sampleNow "Monday" 1234)))
      sampleNow.date.toStr = true :=
  (generated_entry_round_trip sampleNow "Monday" 1234 (some "# Log\n")).2.2.2.2

theorem cfg_trace_clean (g : GitEnv) :
    ((GithubDailyLogger.check_git_config g).2.all fun c => !c.isMutation) = true := by
  unfold GithubDailyLogger.check_git_config
  split
  · rfl
  · split
    · rfl
    · split
      · rfl
      · rfl

theorem repo_trace_clean (r : RepoEnv) :
    ((GithubDailyLogger.get_current_repo_info r).2.all fun c => !c.isMutation) = true := by
  unfold GithubDailyLogger.get_current_repo_info
  split
  · rfl
  · split
    · rfl
    · split
      · rfl
      · rfl

theorem preTrace_clean (env : GithubDailyLogger.Env) :
    (env.preTrace.all fun c => !c.isMutation) = true := by
  unfold GithubDailyLogger.Env.preTrace
  cases hp : env.repoPathArg with
  | none => simp [List.all_append, cfg_trace_clean, repo_trace_clean]
  | some p => simp [cfg_trace_clean]

theorem clean_no_push {t : List Cmd} (h : (t.all fun c => !c.isMutation) = true)
    (b : String) : Cmd.push b ∉ t := by
  intro hm
  have hx := List.all_eq_true.mp h _ hm
  simp [Cmd.isMutation] at hx

theorem main_eq_mainSteps (env : GithubDailyLogger.Env) (lf : String)
    (h1 : env.cfgOk = true) (h2 : env.repoOk = true) :
    GithubDailyLogger.main env lf = GithubDailyLogger.mainSteps env lf env.preTrace := by
  unfold GithubDailyLogger.Env.cfgOk at h1
  unfold GithubDailyLogger.Env.repoOk at h2
  unfold GithubDailyLogger.main GithubDailyLogger.Env.preTrace
  cases hp : env.repoPathArg with
  | none =>
      rw [hp] at h2
      simp only [] at h2
      have h3 : (GithubDailyLogger.get_current_repo_info env.repo).1.isNone = false := by
        cases hi : (GithubDailyLogger.get_current_repo_info env.repo).1 with
        | none => rw [hi] at h2; simp at h2
        | some v => simp
      simp [h1, h3]
  | some p =>
      rw [hp] at h2
      simp only [] at h2
      simp [h1, h2]

theorem mainSteps_skip (env : GithubDailyLogger.Env) (lf : String) (t : List Cmd)
    (h : GithubDailyLogger.check_if_already_logged_today env.file env.today.toStr = true) :
    GithubDailyLogger.mainSteps env lf t = ⟨0, env.file, t⟩ := by
  unfold GithubDailyLogger.mainSteps
  simp [h]

theorem mainSteps_appended (env : GithubDailyLogger.Env) (lf : String) (t : List Cmd)
    (h : GithubDailyLogger.check_if_already_logged_today env.file env.today.toStr = false) :
    (GithubDailyLogger.mainSteps env lf t).file =
      some (GithubDailyLogger.create_or_update_log_file env.file env.entry) := by
  unfold GithubDailyLogger.mainSteps
  simp [h]
  split
  · rfl
  · split
    · rfl
    · rfl

theorem main_skip (env : GithubDailyLogger.Env) (lf : String)
    (h1 : env.cfgOk = true) (h2 : env.repoOk = true)
    (h : GithubDailyLogger.check_if_already_logged_today env.file env.today.toStr = true) :
    GithubDailyLogger.main env lf = ⟨0, env.file, env.preTrace⟩ := by
  rw [main_eq_mainSteps env lf h1 h2, mainSteps_skip env lf _ h]

/-- C2: once the log file contains the date of the day, a run that
passes its preflight performs no file mutation, issues no stage, commit
or push command and returns 0; consequently after any first run of the
day, a second run of the same calendar date (on the file the first run
left behind, with a clock consistent between date.today and
datetime.now) is such a no-op returning 0, so at most one
append-and-commit cycle happens per date per log file. -/
theorem main_noop_when_already_logged (env env2 : GithubDailyLogger.Env) (lf : String)
    (h1 : env.cfgOk = true) (h2 : env.repoOk = true)
    (hclock : env.now.date = env.today)
    (h3 : env2.cfgOk = true) (h4 : env2.repoOk = true)
    (hfile : env2.file = (GithubDailyLogger.main env lf).file)
    (hdate : env2.today = env.today) :
    (GithubDailyLogger.check_if_already_logged_today env.file env.today.toStr = true →
      (GithubDailyLogger.main env lf).exitCode = 0 ∧
      (GithubDailyLogger.main env lf).file = env.file ∧
      ((GithubDailyLogger.main env lf).trace.all fun c => !c.isMutation) = true) ∧
    ((GithubDailyLogger.main env2 lf).exitCode = 0 ∧
      (GithubDailyLogger.main env2 lf).file = env2.file ∧
      ((GithubDailyLogger.main env2 lf).trace.all fun c => !c.isMutation) = true) := by
  have hsecond : GithubDailyLogger.check_if_already_logged_today env2.file
      env2.today.toStr = true := by
    rw [hdate, hfile]
    cases hc : GithubDailyLogger.check_if_already_logged_today env.file env.today.toStr with
    | true =>
        rw [main_skip env lf h1 h2 hc]
        exact hc
    | false =>
        rw [main_eq_mainSteps env lf h1 h2, mainSteps_appended env lf env.preTrace hc]
        have hch := check_append_generated env.file env.now env.weekday env.hashValue
        rw [hclock] at hch
        exact hch
  constructor
  · intro h
    rw [main_skip env lf h1 h2 h]
    exact ⟨rfl, rfl, preTrace_clean env⟩
  · rw [main_skip env2 lf h3 h4 hsecond]
    exact ⟨rfl, rfl, preTrace_clean env2⟩

/-- C2 witness: the second run of the day on the sample environments
returns 0. -/
theorem main_noop_when_already_logged_witness :
    (GithubDailyLogger.main sampleEnvSecond "learning_log.md").exitCode = 0 :=
  (main_noop_when_already_logged sampleEnvFresh sampleEnvSecond "learning_log.md"
    rfl rfl rfl rfl rfl rfl rfl).2.1

/-- C3: a non-zero commit exit whose stderr contains nothing to commit
case-insensitively makes the commit step return success, and the
workflow (its other steps nominal) reports overall success; every other
non-zero commit exit makes the step return failure and aborts the run
before any push.  The update script likewise reports success without
committing when its staged diff is empty. -/
theorem nothing_to_commit_reclassified (g : GitEnv) (p m lf : String)
    (env : GithubDailyLogger.Env) (uenv : UpdateDailyLog.Env) :
    (g.addExit = 0 → g.commitExit ≠ 0 →
      strContains (strToLower g.commitStderr) "nothing to commit" = true →
      (GithubDailyLogger.stage_and_commit_changes g p m).1 = true) ∧
    (g.addExit = 0 → g.commitExit ≠ 0 →
      strContains (strToLower g.commitStderr) "nothing to commit" = false →
      (GithubDailyLogger.stage_and_commit_changes g p m).1 = false) ∧
    (env.cfgOk = true → env.repoOk = true →
      GithubDailyLogger.check_if_already_logged_today env.file env.today.toStr = false →
      env.git.addExit = 0 → env.git.commitExit ≠ 0 →
      strContains (strToLower env.git.commitStderr) "nothing to commit" = true →
      env.git.pushBranchExit = 0 → env.git.pushExit = 0 →
      (GithubDailyLogger.main env lf).exitCode = 0) ∧
    (env.cfgOk = true → env.repoOk = true →
      GithubDailyLogger.check_if_already_logged_today env.file env.today.toStr = false →
      env.git.addExit = 0 → env.git.commitExit ≠ 0 →
      strContains (strToLower env.git.commitStderr) "nothing to commit" = false →
      (GithubDailyLogger.main env lf).exitCode = 1 ∧
        ∀ b, Cmd.push b ∉ (GithubDailyLogger.main env lf).trace) ∧
    (UpdateDailyLog.check_if_already_logged_today uenv.file uenv.today.toStr = false →
      uenv.addExit = 0 → uenv.diffExit = 0 →
      (UpdateDailyLog.main uenv).exitCode = 0 ∧
        ∀ m2, Cmd.commit m2 ∉ (UpdateDailyLog.main uenv).trace) := by
  refine ⟨?_, ?_, ?_, ?_, ?_⟩
  · intro ha hc hs
    unfold GithubDailyLogger.stage_and_commit_changes
    simp [ha, hc, hs]
  · intro ha hc hs
    unfold GithubDailyLogger.stage_and_commit_changes
    simp [ha, hc, hs]
  · intro hcfg hrepo hnl ha hc hs hb hp2
    rw [main_eq_mainSteps env lf hcfg hrepo]
    unfold GithubDailyLogger.mainSteps
    simp [hnl, GithubDailyLogger.stage_and_commit_changes, ha, hc, hs,
      GithubDailyLogger.push_changes, hb, hp2]
  · intro hcfg hrepo hnl ha hc hs
    rw [main_eq_mainSteps env lf hcfg hrepo]
    have hsc : (GithubDailyLogger.stage_and_commit_changes env.git lf
        (GithubDailyLogger.commitMessage env.today)).1 = false := by
      unfold GithubDailyLogger.stage_and_commit_changes
      simp [ha, hc, hs]
    have hsc2 : (GithubDailyLogger.stage_and_commit_changes env.git lf
        (GithubDailyLogger.commitMessage env.today)).2 =
        [Cmd.add lf, Cmd.commit (GithubDailyLogger.commitMessage env.today)] := by
      unfold GithubDailyLogger.stage_and_commit_changes
      simp [ha, hc]
      split <;> rfl
    constructor
    · unfold GithubDailyLogger.mainSteps
      simp [hnl, hsc]
    · intro b hb2
      unfold GithubDailyLogger.mainSteps at hb2
      simp [hnl, hsc, hsc2, List.mem_append] at hb2
      exact clean_no_push (preTrace_clean env) b hb2
  · intro hnl ha hd
    constructor
    · unfold UpdateDailyLog.main
      simp [hnl, ha, hd]
    · intro m2 hm
      unfold UpdateDailyLog.main at hm
      simp [hnl, ha, hd] at hm

/-- C3 witness: a benign nothing-to-commit failure yields overall
success on the sample environment. -/
theorem nothing_to_commit_reclassified_witness :
    (GithubDailyLogger.main sampleEnvNothing "learning_log.md").exitCode = 0 :=
  (nothing_to_commit_reclassified sampleGitNothing "p" "m" "learning_log.md"
      sampleEnvNothing sampleUEnv).2.2.1
    rfl rfl (by decide) rfl (by decide) (by decide) rfl rfl

/-- C6: when the git identity name is unset (the user.name query fails
or returns empty output), check_git_config returns false without any
mutating command, and the workflow aborts with exit status 1, its log
file untouched and no stage, commit or push issued. -/
theorem unset_user_name_aborts (env : GithubDailyLogger.Env) (lf : String)
    (hname : env.git.userNameExit ≠ 0 ∨ env.git.userName = "") :
    (GithubDailyLogger.check_git_config env.git).1 = false ∧
    ((GithubDailyLogger.check_git_config env.git).2.all fun c => !c.isMutation) = true ∧
    (GithubDailyLogger.main env lf).exitCode = 1 ∧
    (GithubDailyLogger.main env lf).file = env.file ∧
    ((GithubDailyLogger.main env lf).trace.all fun c => !c.isMutation) = true := by
  have hcfg : (GithubDailyLogger.check_git_config env.git).1 = false := by
    unfold GithubDailyLogger.check_git_config
    by_cases hv : env.git.versionExit ≠ 0
    · rw [if_pos hv]
    · rw [if_neg hv, if_pos hname]
  refine ⟨hcfg, cfg_trace_clean env.git, ?_, ?_, ?_⟩ <;>
    simp [GithubDailyLogger.main, hcfg, cfg_trace_clean]

/-- C6 witness: an empty user.name aborts the sample run with exit 1. -/
theorem unset_user_name_aborts_witness :
    (GithubDailyLogger.main sampleEnvNoName "learning_log.md").exitCode = 1 :=
  (unset_user_name_aborts sampleEnvNoName "learning_log.md" (Or.inr rfl)).2.2.1

/-- C8: a run past its preflight returns 0 on full success and on the
no-op skip, and 1 when staging, committing (non-benignly) or pushing
fails; on a push failure the exit code is 1 while the appended log-file
content is kept and the commit command was issued, with no rollback
command existing in the model or the script. -/
theorem main_exit_codes (env : GithubDailyLogger.Env) (lf : String)
    (h1 : env.cfgOk = true) (h2 : env.repoOk = true) :
    (GithubDailyLogger.check_if_already_logged_today env.file env.today.toStr = true →
      (GithubDailyLogger.main env lf).exitCode = 0) ∧
    (GithubDailyLogger.check_if_already_logged_today env.file env.today.toStr = false →
      env.git.addExit = 0 → env.git.commitExit = 0 →
      env.git.pushBranchExit = 0 → env.git.pushExit = 0 →
      (GithubDailyLogger.main env lf).exitCode = 0) ∧
    (GithubDailyLogger.check_if_already_logged_today env.file env.today.toStr = false →
      env.git.addExit ≠ 0 → (GithubDailyLogger.main env lf).exitCode = 1) ∧
    (GithubDailyLogger.check_if_already_logged_today env.file env.today.toStr = false →
      env.git.addExit = 0 → env.git.commitExit ≠ 0 →
      strContains (strToLower env.git.commitStderr) "nothing to commit" = false →
      (GithubDailyLogger.main env lf).exitCode = 1) ∧
    (GithubDailyLogger.check_if_already_logged_today env.file env.today.toStr = false →
      env.git.addExit = 0 → env.git.commitExit = 0 →
      env.git.pushBranchExit = 0 → env.git.pushExit ≠ 0 →
      (GithubDailyLogger.main env lf).exitCode = 1 ∧
      (GithubDailyLogger.main env lf).file =
        some (GithubDailyLogger.create_or_update_log_file env.file env.entry) ∧
      Cmd.commit (GithubDailyLogger.commitMessage env.today) ∈
        (GithubDailyLogger.main env lf).trace) := by
  rw [main_eq_mainSteps env lf h1 h2]
  refine ⟨?_, ?_, ?_, ?_, ?_⟩
  · intro h
    rw [mainSteps_skip env lf _ h]
  · intro hnl ha hc hb hp2
    unfold GithubDailyLogger.mainSteps
    simp [hnl, GithubDailyLogger.stage_and_commit_changes, ha, hc,
      GithubDailyLogger.push_changes, hb, hp2]
  · intro hnl ha
    unfold GithubDailyLogger.mainSteps
    simp [hnl, GithubDailyLogger.stage_and_commit_changes, ha]
  · intro hnl ha hc hs
    unfold GithubDailyLogger.mainSteps
    simp [hnl, GithubDailyLogger.stage_and_commit_changes, ha, hc, hs]
  · intro hnl ha hc hb hp2
    have hsc : (GithubDailyLogger.stage_and_commit_changes env.git lf
        (GithubDailyLogger.commitMessage env.today)) =
        (true, [Cmd.add lf, Cmd.commit (GithubDailyLogger.commitMessage env.today)]) := by
      unfold GithubDailyLogger.stage_and_commit_changes
      simp [ha, hc]
    have hpc : (GithubDailyLogger.push_changes env.git) =
        (false, [Cmd.revParseBranch, Cmd.push env.git.pushBranch]) := by
      unfold GithubDailyLogger.push_changes
      simp [hb, hp2]
    unfold GithubDailyLogger.mainSteps
    rw [hsc, hpc]
    simp [hnl]

/-- C8 witness: a push failure on the sample environment exits 1. -/
theorem main_exit_codes_witness :
    (GithubDailyLogger.main sampleEnvPushFail "learning_log.md").exitCode = 1 :=
  ((main_exit_codes sampleEnvPushFail "learning_log.md" rfl rfl).2.2.2.2
    (by decide) rfl rfl rfl (by decide)).1

theorem flatMap_blocks_commit_then_sleep (ls : List Nat) (d : String) (f : Nat → String) :
    ∀ i m, (ls.flatMap (variantBlock d f))[i]? = some (VariantAction.commit m) →
      (ls.flatMap (variantBlock d f))[i + 1]? = some (VariantAction.sleep 3) := by
  induction ls with
  | nil => intro i m h; simp at h
  | cons a tl ih =>
      intro i m h
      rw [List.flatMap_cons] at h ⊢
      rcases i with _ | _ | _ | n
      · simp [variantBlock] at h
      · simp [variantBlock]
      · simp [variantBlock] at h
      · simp only [variantBlock, List.cons_append, List.nil_append,
          List.getElem?_cons_succ] at h ⊢
        exact ih n m h

theorem variantRun_countP (c : Nat) (d : String) (f : Nat → String) :
    (variantRun c d f).countP VariantAction.isCommit = c := by
  induction c with
  | zero => rfl
  | succ n ih =>
      unfold variantRun at ih ⊢
      rw [List.range_succ, List.flatMap_append, List.countP_append, ih]
      simp [variantBlock, List.countP_cons, VariantAction.isCommit]

/-- C9: the multi-entry variant mode, modelled from the spec, has a
configurable entry count defaulting to 7; a run with count c issues
exactly c commits; every commit message has the form docs colon daily
log entry index, date in parentheses, with the index among the first c;
every written entry is the Markdown subsection built from a UTC time;
and every commit is immediately followed by the fixed few-second pause,
so a pause stands between any two consecutive commits. -/
theorem variant_mode_multi_entry (c : Nat) (d : String) (f : Nat → String) :
    variantDefaultCount = 7 ∧
    (variantRun c d f).countP VariantAction.isCommit = c ∧
    (∀ m, VariantAction.commit m ∈ variantRun c d f →
      ∃ i, i < c ∧ m = variantCommitMessage (i + 1) d) ∧
    (∀ e, VariantAction.write e ∈ variantRun c d f →
      ∃ i, i < c ∧ e = variantEntry (f i)) ∧
    (∀ i m, (variantRun c d f)[i]? = some (VariantAction.commit m) →
      (variantRun c d f)[i + 1]? = some (VariantAction.sleep 3)) := by
  refine ⟨rfl, variantRun_countP c d f, ?_, ?_,
    flatMap_blocks_commit_then_sleep (List.range c) d f⟩
  · intro m hm
    unfold variantRun at hm
    rcases List.mem_flatMap.mp hm with ⟨i, hi, hin⟩
    simp [variantBlock] at hin
    exact ⟨i, List.mem_range.mp hi, hin⟩
  · intro e hm
    unfold variantRun at hm
    rcases List.mem_flatMap.mp hm with ⟨i, hi, hin⟩
    simp [variantBlock] at hin
    exact ⟨i, List.mem_range.mp hi, hin⟩

/-- C9 witness: the default-count run issues exactly 7 commits. -/
theorem variant_mode_multi_entry_witness :
    (variantRun variantDefaultCount "2024-01-01" fun _ => "12:00:00").countP
      VariantAction.isCommit = 7 :=
  (variant_mode_multi_entry variantDefaultCount "2024-01-01" fun _ => "12:00:00").2.1

/-- C10: on an existing file the two scripts' append operations agree
exactly; they differ only on the absent-file case, where
github_daily_logger.py first creates the file empty while
update_daily_log.py first creates it with the fixed Learning Log header,
making their results differ there; and their entry generators produce
identical output for the same clock reading, weekday rendering and hash
value. -/
theorem scripts_extensionally_related (C E : String) (now : DateTime) (w : String)
    (hv : Int) :
    GithubDailyLogger.create_or_update_log_file (some C) E =
      UpdateDailyLog.create_or_update_log_file (some C) E ∧
    GithubDailyLogger.create_or_update_log_file none E =
      GithubDailyLogger.create_or_update_log_file (some "") E ∧
    UpdateDailyLog.create_or_update_log_file none E =
      UpdateDailyLog.create_or_update_log_file (some UpdateDailyLog.newFileHeader) E ∧
    ("# Learning Log".data <+: UpdateDailyLog.newFileHeader.data) ∧
    GithubDailyLogger.create_or_update_log_file none E ≠
      UpdateDailyLog.create_or_update_log_file none E ∧
    GithubDailyLogger.generate_daily_entry now w hv =
      UpdateDailyLog.generate_daily_entry now w hv := by
  refine ⟨rfl, rfl, rfl, by decide, ?_, rfl⟩
  intro h
  have e1 : GithubDailyLogger.create_or_update_log_file none E = "" ++ E ++ "\n" := by
    unfold GithubDailyLogger.create_or_update_log_file GithubDailyLogger.readOrCreate
    rw [if_neg (by simp)]
  have hnend : strEndsWith UpdateDailyLog.newFileHeader "\n" = true := by decide
  have e2 : UpdateDailyLog.create_or_update_log_file none E =
      UpdateDailyLog.newFileHeader ++ E ++ "\n" := by
    unfold UpdateDailyLog.create_or_update_log_file UpdateDailyLog.readOrCreate
    rw [if_neg (by simp [hnend])]
  rw [e1, e2] at h
  have hlen := congrArg String.length h
  simp [String.length_append] at hlen
  have hpos : 0 < UpdateDailyLog.newFileHeader.length := by decide
  omega

/-- C10 witness: agreement of the two appends on a concrete existing
file. -/
theorem scripts_extensionally_related_witness :
    GithubDailyLogger.create_or_update_log_file (some "# Log\n") "e" =
      UpdateDailyLog.create_or_update_log_file (some "# Log\n") "e" :=
  (scripts_extensionally_related "# Log\n" "e" sampleNow "Monday" 1234).1
